import Mathlib

/-!
# Verification of the english-bot repository

A shallow embedding of the core of the `english-bot` repository (a Telegram
English-tutoring bot written in Go) together with proofs settling the frozen
claims about its specification.

Modelling conventions:
* Go strings are modelled as `List Char`.  All string data handled by the
  embedded functions (answer keys, user answers to templated exercises,
  state names, context keys) is ASCII, where Go's byte indexing and byte
  comparisons agree with character indexing and comparison.
* Go's `float64` similarity score is modelled as `ℚ`; every value the code
  produces and compares (`1.0`, `1 - d/m`, the `0.8` threshold) is exact at
  the inputs relevant to the claims.
* Calendar timestamps are modelled by their (year, month, day) triple, which
  is exactly the data `UpdateUserStreak` inspects; `time.Now()` and the
  derived `now.AddDate(0,0,-1)` are passed in as explicit `now`/`yesterday`
  arguments.
* `rand.Intn` in the templated generator is modelled by an explicit index
  argument.
* Database rows are modelled as Lean structures, tables as lists of rows,
  and each store operation as a pure function on them.
-/

namespace EnglishBot

/-! ## String primitives (Go `strings` package, ASCII fragment) -/

/-- The whitespace characters of `unicode.IsSpace` in the ASCII range
(space, tab, newline, vertical tab, form feed, carriage return);
`strings.TrimSpace` strips exactly these from ASCII strings. -/
def isSpaceChar (c : Char) : Bool :=
  c = ' ' || c = '\t' || c = '\n' || c = '\x0b' || c = '\x0c' || c = '\r'

/-- Per-character lowering, the ASCII fragment of the Unicode case mapping
used by Go's `strings.ToLower`: `'A'`–`'Z'` map to `'a'`–`'z'` (codepoint
plus 32), everything else is unchanged. -/
def toLowerChar (c : Char) : Char :=
  if 'A' ≤ c ∧ c ≤ 'Z' then Char.ofNat (c.toNat + 32) else c

/-- Go `strings.ToLower` on an ASCII string. -/
def goToLower (s : List Char) : List Char :=
  s.map toLowerChar

/-- Go `strings.TrimSpace`: drop leading and trailing whitespace. -/
def goTrimSpace (s : List Char) : List Char :=
  ((s.dropWhile isSpaceChar).reverse.dropWhile isSpaceChar).reverse

/-- Go `strings.Split(s, sep)` for a one-character separator, as used by
`CheckAnswer` and `GenerateSimpleExercise` with separator `"/"`. -/
def goSplit (s : List Char) (sep : Char) : List (List Char) :=
  s.splitOn sep

/-- Go `strings.Contains(s, substr)`. -/
def goContains (s substr : List Char) : Bool :=
  decide (substr <:+: s)

/-! ## Edit-Distance Scorer (`levenshteinDistance`, `levenshteinRatio`,
`min`, `max` from the exercise service) -/

/-- Go helper `min(a, b, c int) int` from the exercise service, with its
exact comparison structure. -/
def min3 (a b c : Nat) : Nat :=
  if a < b then (if a < c then a else c) else (if b < c then b else c)

/-- `levenshteinDistance` from the exercise service.  The Go code fills the
dynamic-programming matrix `matrix[i][j] = min3(matrix[i-1][j]+1,
matrix[i][j-1]+1, matrix[i-1][j-1]+cost)` with border `matrix[i][0] = i`,
`matrix[0][j] = j` and returns `matrix[len s1][len s2]`; this recursion
computes exactly that matrix entry (distances are non-negative, so Go's
`int` is modelled as `Nat`).  The two length-zero guards mirror the Go
function's early returns. -/
def levenshteinDistance : List Char → List Char → Nat
  | [], s2 => s2.length
  | s1, [] => s1.length
  | a :: s1, b :: s2 =>
      min3 (levenshteinDistance s1 (b :: s2) + 1)
           (levenshteinDistance (a :: s1) s2 + 1)
           (levenshteinDistance s1 s2 + (if a = b then 0 else 1))
termination_by s1 s2 => s1.length + s2.length

/-- `levenshteinRatio` from the exercise service (renamed): similarity in
`[0,1]`; `1.0` when both strings are empty, otherwise
`1 - distance / max(len s1, len s2)`.  Go's `float64` is modelled as `ℚ`. -/
def levenshteinSimilarity (s1 s2 : List Char) : ℚ :=
  let dist := levenshteinDistance s1 s2
  let maxLen : ℚ := (max s1.length s2.length : Nat)
  if maxLen = 0 then 1 else 1 - (dist : ℚ) / maxLen

/-! ## Exercise data model and Answer Evaluator (`CheckAnswer`) -/

/-- `ExerciseType` constants from the exercise service. -/
inductive ExerciseType where
  | grammar
  | vocabulary
  | translation
  | listening
  | speaking
deriving DecidableEq, Repr

/-- `EnglishLevel` constants from the exercise service. -/
inductive EnglishLevel where
  | A1
  | A2
  | B1
  | B2
  | C1
  | C2
deriving DecidableEq, Repr

/-- The `Exercise` struct of the exercise service. -/
structure Exercise where
  type : ExerciseType
  level : EnglishLevel
  instruction : String
  content : String
  answer : String
  options : List String
deriving DecidableEq, Repr

/-- The normalization `CheckAnswer` applies to both the user answer and the
canonical answer: `strings.ToLower(strings.TrimSpace(s))`. -/
def normalizeAnswer (s : String) : List Char :=
  goToLower (goTrimSpace s.toList)

/-- `correctVariants` in `CheckAnswer`: the normalized canonical answer is
split on `"/"` into the accepted variants. -/
def answerVariants (exercise : Exercise) : List (List Char) :=
  goSplit (normalizeAnswer exercise.answer) '/'

/-- `CheckAnswer` from the exercise service: returns a score and feedback.
The three `for _, variant := range correctVariants` loops, each of which
returns on the first match, are rendered as `List.any` tests in the same
priority order (exact equality, then similarity above `0.8`, then substring
containment), falling through to the score-0 result. -/
def checkAnswer (exercise : Exercise) (userAnswer : String) : Int × String :=
  let normalizedUserAnswer := normalizeAnswer userAnswer
  let correctVariants := answerVariants exercise
  if correctVariants.any (fun variant =>
      normalizedUserAnswer == goTrimSpace variant) then
    (100, "Perfect! Your answer is correct.")
  else if correctVariants.any (fun variant =>
      decide (levenshteinSimilarity normalizedUserAnswer (goTrimSpace variant) > (0.8 : ℚ))) then
    (80, "Almost correct! There are some minor errors in your answer.")
  else if correctVariants.any (fun variant =>
      goContains normalizedUserAnswer (goTrimSpace variant)) then
    (60, "Partially correct. Your answer contains the right elements but has some issues.")
  else
    (0, "Your answer is incorrect. Please try again.")

/-! ## Template parsers (`extractOptions`, `cleanExerciseContent`) -/

/-- `extractOptions` from the exercise service: the text strictly between
the first `'('` and the first `')'` when both exist in that order,
otherwise the empty string (`strings.Index` is modelled by `findIdx?`,
which agrees on the ASCII template strings these are applied to). -/
def extractOptions (content : List Char) : List Char :=
  match content.findIdx? (· == '('), content.findIdx? (· == ')') with
  | some start, some stop =>
      if start < stop then (content.take stop).drop (start + 1) else []
  | _, _ => []

/-- `cleanExerciseContent` from the exercise service: replace the first
parenthesized group (inclusive) by the blank marker `"_____ "`, or return
the string unchanged when there is no such group. -/
def cleanExerciseContent (content : List Char) : List Char :=
  match content.findIdx? (· == '('), content.findIdx? (· == ')') with
  | some start, some stop =>
      if start < stop then
        content.take start ++ (String.toList "_____ ") ++ content.drop (stop + 1)
      else content
  | _, _ => content

/-! ## Templated generator (`GenerateSimpleExercise`) -/

/-- The candidate sentence lists of `GenerateSimpleExercise`, per exercise
type and level, with the exact level branching of the Go code: grammar
tests `level == A1 || level == A2 || level == B1`, while vocabulary and
translation test only `level == A1 || level == A2`.  The `switch` has no
case for listening or speaking, so those produce no candidates. -/
def simpleSentences : ExerciseType → EnglishLevel → List String
  | .grammar, level =>
      if level = .A1 ∨ level = .A2 ∨ level = .B1 then
        ["I usually (go/am going) to work by bus.",
         "She (speaks/is speaking) on the phone right now.",
         "They (don't like/aren't liking) coffee.",
         "What (do you do/are you doing) this weekend?",
         "He (doesn't work/isn't working) today because he is sick."]
      else
        ["If I (have) more time, I would learn another language.",
         "She would have passed the exam if she (study) harder.",
         "If you (call) me earlier, I would have picked you up.",
         "What would you do if you (win) the lottery?",
         "He (travel) around the world if he didn't have to work."]
  | .vocabulary, level =>
      if level = .A1 ∨ level = .A2 then
        ["I need to _____ (buy/sell/give) some food for dinner.",
         "She _____ (lives/works/studies) in London with her family.",
         "We usually _____ (have/take/do) breakfast at 8 AM.",
         "They don't _____ (like/want/need) to watch TV in the evening.",
         "Can you _____ (open/close/lock) the window, please?"]
      else
        ["The government implemented _____ (stringent/lenient/ambiguous) measures to control the spread of the virus.",
         "Her _____ (eloquent/reticent/verbose) speech captivated the entire audience.",
         "The scandal had a _____ (detrimental/beneficial/neutral) effect on his reputation.",
         "Scientists have _____ (corroborated/refuted/ignored) the theory with new evidence.",
         "The company is facing _____ (unprecedented/expected/minimal) challenges due to economic changes."]
  | .translation, level =>
      if level = .A1 ∨ level = .A2 then
        ["Меня зовут Иван. Я живу в Москве.",
         "У меня есть собака и кошка.",
         "Я люблю пиццу и мороженое.",
         "Сегодня хорошая погода.",
         "Я учу английский язык два года."]
      else
        ["Несмотря на все трудности, он продолжал идти к своей цели.",
         "Если бы я знал об этом раньше, я бы принял другое решение.",
         "Чем больше я об этом думаю, тем меньше мне это нравится.",
         "Компания объявила о сокращении штата из-за экономического кризиса.",
         "Необходимо разработать комплексный подход к решению данной проблемы."]
  | _, _ => []

/-- The answer lists of `GenerateSimpleExercise`, parallel to
`simpleSentences`, with the same level branching. -/
def simpleAnswers : ExerciseType → EnglishLevel → List String
  | .grammar, level =>
      if level = .A1 ∨ level = .A2 ∨ level = .B1 then
        ["go", "is speaking", "don't like", "are you doing", "isn't working"]
      else
        ["had", "had studied", "had called", "won", "would travel"]
  | .vocabulary, level =>
      if level = .A1 ∨ level = .A2 then
        ["buy", "lives", "have", "like", "open"]
      else
        ["stringent", "eloquent", "detrimental", "corroborated", "unprecedented"]
  | .translation, level =>
      if level = .A1 ∨ level = .A2 then
        ["My name is Ivan. I live in Moscow.",
         "I have a dog and a cat.",
         "I like/love pizza and ice cream.",
         "The weather is good today.",
         "I have been learning English for two years."]
      else
        ["Despite all the difficulties, he continued moving towards his goal.",
         "If I had known about this earlier, I would have made a different decision.",
         "The more I think about it, the less I like it.",
         "The company announced staff reductions due to the economic crisis.",
         "It is necessary to develop a comprehensive approach to solving this problem."]
  | _, _ => []

/-- `GenerateSimpleExercise` from the exercise service, with the random
index `rand.Intn(len(sentences))` supplied as `idx`.  Grammar at levels
A1/A2/B1 and vocabulary at every level split the parenthesized group into
`options` and blank out the content; the higher grammar levels and
translation leave the sentence as is. -/
def generateSimpleExercise (idx : Nat) (exerciseType : ExerciseType)
    (level : EnglishLevel) : Exercise :=
  let content := (simpleSentences exerciseType level).getD idx ""
  let answer := (simpleAnswers exerciseType level).getD idx ""
  match exerciseType with
  | .grammar =>
      if level = .A1 ∨ level = .A2 ∨ level = .B1 then
        { type := exerciseType, level := level,
          instruction := "Choose the correct form of the verb to complete the sentence.",
          content := String.mk (cleanExerciseContent content.toList),
          answer := answer,
          options := (goSplit (extractOptions content.toList) '/').map String.mk }
      else
        { type := exerciseType, level := level,
          instruction := "Complete the conditional sentence with the correct form of the verb in brackets.",
          content := content, answer := answer, options := [] }
  | .vocabulary =>
      { type := exerciseType, level := level,
        instruction := "Fill in the blank with the correct word from the options.",
        content := String.mk (cleanExerciseContent content.toList),
        answer := answer,
        options := (goSplit (extractOptions content.toList) '/').map String.mk }
  | .translation =>
      { type := exerciseType, level := level,
        instruction := "Translate the following sentence into English.",
        content := content, answer := answer, options := [] }
  | _ =>
      { type := exerciseType, level := level,
        instruction := "", content := "", answer := "", options := [] }

/-! ## Progress store (`CreateUserProgress`, `UpdateUserStreak`,
`AddUserAchievement` from the database layer) -/

/-- A calendar date: exactly the `(Year(), Month(), Day())` triple that
`UpdateUserStreak` compares. -/
structure Date where
  year : Int
  month : Int
  day : Int
deriving DecidableEq, Repr

/-- The calendar-date comparison performed by `UpdateUserStreak`:
`t.Year() == u.Year() && t.Month() == u.Month() && t.Day() == u.Day()`. -/
def sameDate (a b : Date) : Bool :=
  a.year == b.year && a.month == b.month && a.day == b.day

/-- The `UserProgress` row (streak-relevant fields plus the exercise
counters updated by `SaveUserExercise`). -/
structure UserProgress where
  totalExercises : Int
  correctExercises : Int
  currentStreak : Int
  longestStreak : Int
  lastActivityDate : Date
deriving DecidableEq, Repr

/-- `CreateUserProgress`: the row inserted for a user with no progress yet —
all counters and streaks 0, and `last_activity_date` set to `now`. -/
def createUserProgress (now : Date) : UserProgress :=
  { totalExercises := 0, correctExercises := 0,
    currentStreak := 0, longestStreak := 0, lastActivityDate := now }

/-- The common tail of `UpdateUserStreak` after the current streak has been
chosen: raise `longest_streak` to the current streak if it exceeds it, and
set `last_activity_date = now`. -/
def applyStreakUpdate (now : Date) (progress : UserProgress) : UserProgress :=
  { progress with
    longestStreak :=
      if progress.currentStreak > progress.longestStreak then
        progress.currentStreak
      else progress.longestStreak,
    lastActivityDate := now }

/-- One call of `UpdateUserStreak` on an existing progress row.  `now` is
the calendar date of `time.Now()` and `yesterday` that of
`now.AddDate(0, 0, -1)`.  The Go function increments the streak when the
last activity was yesterday, returns early (leaving the row untouched) when
it was today, and otherwise restarts the streak at 1; the non-early-return
branches then update the longest streak and the activity date. -/
def updateUserStreak (now yesterday : Date) (progress : UserProgress) :
    UserProgress :=
  if sameDate progress.lastActivityDate yesterday then
    applyStreakUpdate now { progress with currentStreak := progress.currentStreak + 1 }
  else if sameDate progress.lastActivityDate now then
    progress
  else
    applyStreakUpdate now { progress with currentStreak := 1 }

/-- A `UserAchievement` row (the fields written by `AddUserAchievement`;
`unlocked_at` is omitted as no claim concerns it). -/
structure UserAchievement where
  userId : Int
  achievementType : String
  title : String
  description : String
deriving DecidableEq, Repr

/-- The existence check of `AddUserAchievement`:
`SELECT id FROM user_achievements WHERE user_id = $1 AND achievement_type = $2`. -/
def hasAchievement (achievements : List UserAchievement) (userId : Int)
    (achievementType : String) : Bool :=
  achievements.any (fun a =>
    a.userId == userId && a.achievementType == achievementType)

/-- `AddUserAchievement`, with the `user_achievements` table modelled as a
list of rows: a no-op when the user already has an achievement of this
type, otherwise an insert. -/
def addUserAchievement (achievements : List UserAchievement) (userId : Int)
    (achievementType title description : String) : List UserAchievement :=
  if hasAchievement achievements userId achievementType then
    achievements
  else
    achievements ++ [{ userId := userId, achievementType := achievementType,
                       title := title, description := description }]

/-- The number of stored achievements of one type for one user. -/
def countAchievements (achievements : List UserAchievement) (userId : Int)
    (achievementType : String) : Nat :=
  (achievements.filter (fun a =>
    a.userId == userId && a.achievementType == achievementType)).length

/-! ## Session state machine (handler constants, `/exercise` command,
`exercise_reply` message branch) -/

/-- State constant `StateIdle`. -/
def StateIdle : String := "idle"

/-- State constant `StateChat`. -/
def StateChat : String := "chat"

/-- State constant `StateGrammarCheck`. -/
def StateGrammarCheck : String := "grammar_check"

/-- State constant `StateExercise`. -/
def StateExercise : String := "exercise"

/-- State constant `StateExerciseReply`. -/
def StateExerciseReply : String := "exercise_reply"

/-- The session fields the handlers read and write (`context_data` is the
JSON map rendered as an association list; object key order is immaterial). -/
structure UserSession where
  state : String
  contextData : List (String × String)
  conversationID : String
deriving DecidableEq, Repr

/-- The `/exercise` branch of `handleCommand`.  `generated` is the result
of the Completion Provider call (`openAI.GenerateExercise`) and
`savedExerciseID` the id assigned by `SaveExercise`.  The Go code persists
the session with state `exercise` and context `{exerciseType: grammar}`
*before* calling the provider; on provider error it sends an apology and
returns, leaving that persisted session in place; on success it persists
the session again with state `exercise_reply` and the exercise id added to
the context.  Returns the finally-persisted session and whether the turn
completed. -/
def handleExerciseCommand (session : UserSession)
    (generated : Except Unit String) (savedExerciseID : Int) :
    UserSession × Bool :=
  let session1 : UserSession :=
    { session with state := StateExercise,
                   contextData := [("exerciseType", "grammar")] }
  match generated with
  | .error _ => (session1, false)
  | .ok _ =>
      let session2 : UserSession :=
        { session1 with
          state := StateExerciseReply,
          contextData := [("exerciseType", "grammar"),
                          ("exerciseID", toString savedExerciseID)] }
      (session2, true)

/-- A `UserExercise` row as persisted by the `exercise_reply` branch
(`created_at` omitted as no claim concerns it). -/
structure UserExercise where
  userId : Int
  exerciseId : Int
  userAnswer : String
  isCorrect : Bool
deriving DecidableEq, Repr

/-- The correctness check actually performed by the `exercise_reply` branch
of `handleMessageByState`:
`isCorrect := strings.Contains(strings.ToLower(text), "correct")` — the
code's own comment calls it a stub standing in for a real grading call. -/
def exerciseReplyIsCorrect (text : String) : Bool :=
  goContains (goToLower text.toList) (String.toList "correct")

/-- The `UserExercise` row built and persisted by the `exercise_reply`
branch for user `userId`, the exercise id read from the session context,
and the message text. -/
def handleExerciseReply (userId exerciseId : Int) (text : String) :
    UserExercise :=
  { userId := userId, exerciseId := exerciseId, userAnswer := text,
    isCorrect := exerciseReplyIsCorrect text }

/-! ## Helper lemmas -/

/-- Inserting the row for `(userId, achievementType)` makes the existence
check succeed. -/
theorem hasAchievement_append (achievements : List UserAchievement)
    (userId : Int) (achievementType title description : String) :
    hasAchievement
      (achievements ++ [{ userId := userId, achievementType := achievementType,
                          title := title, description := description }])
      userId achievementType = true := by
  simp [hasAchievement]

/-- Packing a codepoint below the surrogate range round-trips through
`Char.ofNat`. -/
theorem toNat_ofNat_valid (n : Nat) (h : n < 55296) :
    (Char.ofNat n).toNat = n := by
  unfold Char.ofNat
  rw [dif_pos (Or.inl h : Nat.isValidChar n)]
  rfl

/-- The order on `Char` is the order of the codepoints. -/
theorem charLe_iff (a b : Char) : a ≤ b ↔ a.toNat ≤ b.toNat :=
  ⟨fun h => h, fun h => h⟩

/-- Lowering a character twice is the same as lowering it once. -/
theorem toLowerChar_idem (c : Char) :
    toLowerChar (toLowerChar c) = toLowerChar c := by
  unfold toLowerChar
  split
  · next h =>
    have hA : ('A' : Char).toNat = 65 := rfl
    have hZ : ('Z' : Char).toNat = 90 := rfl
    have hc1 : 65 ≤ c.toNat := by
      have := (charLe_iff 'A' c).mp h.1; rw [hA] at this; exact this
    have hc2 : c.toNat ≤ 90 := by
      have := (charLe_iff c 'Z').mp h.2; rw [hZ] at this; exact this
    have hv : (Char.ofNat (c.toNat + 32)).toNat = c.toNat + 32 :=
      toNat_ofNat_valid _ (by omega)
    rw [if_neg]
    intro hcontra
    have h2 := (charLe_iff _ 'Z').mp hcontra.2
    rw [hv, hZ] at h2
    omega
  · rfl

/-- No character at or above codepoint 65 is whitespace. -/
theorem isSpaceChar_eq_false_of_ge (c : Char) (h : 65 ≤ c.toNat) :
    isSpaceChar c = false := by
  simp only [isSpaceChar, Bool.or_eq_false_iff, decide_eq_false_iff_not]
  refine ⟨⟨⟨⟨⟨?_, ?_⟩, ?_⟩, ?_⟩, ?_⟩, ?_⟩ <;>
    (intro he; rw [he] at h; exact absurd h (by decide))

/-- Lowering does not affect whether a character is whitespace. -/
theorem isSpace_toLowerChar (c : Char) :
    isSpaceChar (toLowerChar c) = isSpaceChar c := by
  unfold toLowerChar
  split
  · next h =>
    have hA : ('A' : Char).toNat = 65 := rfl
    have hZ : ('Z' : Char).toNat = 90 := rfl
    have hc1 : 65 ≤ c.toNat := by
      have := (charLe_iff 'A' c).mp h.1; rw [hA] at this; exact this
    have hc2 : c.toNat ≤ 90 := by
      have := (charLe_iff c 'Z').mp h.2; rw [hZ] at this; exact this
    have hv : (Char.ofNat (c.toNat + 32)).toNat = c.toNat + 32 :=
      toNat_ofNat_valid _ (by omega)
    rw [isSpaceChar_eq_false_of_ge _ (by rw [hv]; omega),
        isSpaceChar_eq_false_of_ge c (by omega)]
  · rfl

/-- Lowering a string twice is the same as lowering it once. -/
theorem goToLower_goToLower (l : List Char) :
    goToLower (goToLower l) = goToLower l := by
  unfold goToLower
  induction l with
  | nil => rfl
  | cons a t ih => simp only [List.map_cons, toLowerChar_idem, ih]

/-- `dropWhile` commutes with `map` when the predicate is invariant under
the mapped function. -/
theorem dropWhile_map_eq (f : Char → Char) (p : Char → Bool)
    (h : ∀ x, p (f x) = p x) (l : List Char) :
    (l.map f).dropWhile p = (l.dropWhile p).map f := by
  induction l with
  | nil => rfl
  | cons a t ih =>
    simp [List.dropWhile, h a]
    split <;> simp_all

/-- Trimming commutes with lowering. -/
theorem goTrimSpace_goToLower (l : List Char) :
    goTrimSpace (goToLower l) = goToLower (goTrimSpace l) := by
  unfold goTrimSpace goToLower
  rw [dropWhile_map_eq _ _ isSpace_toLowerChar, ← List.map_reverse,
      dropWhile_map_eq _ _ isSpace_toLowerChar, ← List.map_reverse]

/-- The head surviving a `dropWhile` does not satisfy the predicate. -/
theorem dropWhile_head?_false (p : Char → Bool) :
    ∀ (l : List Char) (c : Char),
      (l.dropWhile p).head? = some c → p c = false := by
  intro l
  induction l with
  | nil => intro c hc; simp [List.dropWhile] at hc
  | cons a t ih =>
    intro c hc
    rw [List.dropWhile_cons] at hc
    by_cases h : p a = true
    · rw [if_pos h] at hc; exact ih c hc
    · rw [if_neg h] at hc
      simp only [List.head?_cons, Option.some.injEq] at hc
      subst hc
      simpa using h

/-- A list whose head does not satisfy the predicate is unchanged by
`dropWhile`. -/
theorem dropWhile_eq_self_of (p : Char → Bool) (l : List Char)
    (h : ∀ c, l.head? = some c → p c = false) : l.dropWhile p = l := by
  cases l with
  | nil => rfl
  | cons a t => rw [List.dropWhile_cons, if_neg (by simp [h a rfl])]

/-- `dropWhile` keeps the last element of a list it does not empty. -/
theorem getLast?_dropWhile (p : Char → Bool) :
    ∀ l : List Char, l.dropWhile p ≠ [] →
      (l.dropWhile p).getLast? = l.getLast? := by
  intro l
  induction l with
  | nil => intro h; simp [List.dropWhile] at h
  | cons a t ih =>
    intro h
    rw [List.dropWhile_cons]
    by_cases hp : p a = true
    · rw [List.dropWhile_cons, if_pos hp] at h
      rw [if_pos hp, ih h]
      cases t with
      | nil => simp [List.dropWhile] at h
      | cons b t' => rw [List.getLast?_cons_cons]
    · rw [if_neg hp]

/-- Trimming a string twice is the same as trimming it once. -/
theorem goTrimSpace_idem (l : List Char) :
    goTrimSpace (goTrimSpace l) = goTrimSpace l := by
  unfold goTrimSpace
  by_cases hB : (l.dropWhile isSpaceChar).reverse.dropWhile isSpaceChar = []
  · rw [hB]; rfl
  · have hBrev : ((l.dropWhile isSpaceChar).reverse.dropWhile
        isSpaceChar).reverse.dropWhile isSpaceChar =
        ((l.dropWhile isSpaceChar).reverse.dropWhile isSpaceChar).reverse := by
      apply dropWhile_eq_self_of
      intro c hc
      rw [List.head?_reverse] at hc
      rw [getLast?_dropWhile _ _ hB, List.getLast?_reverse] at hc
      exact dropWhile_head?_false _ _ _ hc
    rw [hBrev, List.reverse_reverse,
        dropWhile_eq_self_of _ _ (fun c hc => dropWhile_head?_false _ _ _ hc)]

/-- Normalizing an already-normalized answer is the identity, so grading a
user answer and grading its normalized form coincide. -/
theorem normalizeAnswer_mk (s : String) :
    normalizeAnswer (String.mk (normalizeAnswer s)) = normalizeAnswer s := by
  unfold normalizeAnswer
  have hmk : (String.mk (goToLower (goTrimSpace s.toList))).toList =
      goToLower (goTrimSpace s.toList) := rfl
  rw [hmk, goTrimSpace_goToLower, goToLower_goToLower, goTrimSpace_idem]

/-! ## Claims -/

/-- C10: `cleanExerciseContent` applied to the template string
`"I (go/goes)"` yields exactly `"I _____ "`, and `extractOptions` applied
to the same string yields exactly `"go/goes"`. -/
theorem templateRoundTrip :
    cleanExerciseContent (String.toList "I (go/goes)") = String.toList "I _____ " ∧
    extractOptions (String.toList "I (go/goes)") = String.toList "go/goes" := by
  decide

/-- C3 counterexample: for the vocabulary type the levels A1 and B1 do
*not* draw from the same candidate list — B1 vocabulary uses the advanced
sentence and answer lists, because the vocabulary branch tests only
`level == A1 || level == A2`. -/
theorem vocabularyBucketCounterexample :
    simpleSentences ExerciseType.vocabulary EnglishLevel.B1 ≠
      simpleSentences ExerciseType.vocabulary EnglishLevel.A1 ∧
    simpleAnswers ExerciseType.vocabulary EnglishLevel.B1 ≠
      simpleAnswers ExerciseType.vocabulary EnglishLevel.A1 := by
  decide

/-- C3 amended: the grammar generator buckets A1/A2/B1 together (lower)
and B2/C1/C2 together (upper), but the vocabulary generator buckets only
A1/A2 together (lower) and B1/B2/C1/C2 together (upper); in particular the
B1 vocabulary candidates differ from the A1 ones. -/
theorem simpleExerciseBuckets :
    (simpleSentences .grammar .A1 = simpleSentences .grammar .A2 ∧
     simpleSentences .grammar .A2 = simpleSentences .grammar .B1 ∧
     simpleAnswers .grammar .A1 = simpleAnswers .grammar .A2 ∧
     simpleAnswers .grammar .A2 = simpleAnswers .grammar .B1) ∧
    (simpleSentences .grammar .B2 = simpleSentences .grammar .C1 ∧
     simpleSentences .grammar .C1 = simpleSentences .grammar .C2 ∧
     simpleAnswers .grammar .B2 = simpleAnswers .grammar .C1 ∧
     simpleAnswers .grammar .C1 = simpleAnswers .grammar .C2) ∧
    (simpleSentences .vocabulary .A1 = simpleSentences .vocabulary .A2 ∧
     simpleAnswers .vocabulary .A1 = simpleAnswers .vocabulary .A2) ∧
    (simpleSentences .vocabulary .B1 = simpleSentences .vocabulary .B2 ∧
     simpleSentences .vocabulary .B2 = simpleSentences .vocabulary .C1 ∧
     simpleSentences .vocabulary .C1 = simpleSentences .vocabulary .C2 ∧
     simpleAnswers .vocabulary .B1 = simpleAnswers .vocabulary .B2 ∧
     simpleAnswers .vocabulary .B2 = simpleAnswers .vocabulary .C1 ∧
     simpleAnswers .vocabulary .C1 = simpleAnswers .vocabulary .C2) ∧
    simpleSentences .vocabulary .B1 ≠ simpleSentences .vocabulary .A1 := by
  refine ⟨⟨rfl, rfl, rfl, rfl⟩, ⟨rfl, rfl, rfl, rfl⟩, ⟨rfl, rfl⟩,
    ⟨rfl, rfl, rfl, rfl, rfl, rfl⟩, ?_⟩
  decide

/-- C9: unlocking an achievement is idempotent — a second call with the
same user and type is a no-op, and starting from no stored achievement of
that type, one call stores exactly one. -/
theorem addUserAchievement_idempotent :
    (∀ (achievements : List UserAchievement) (userId : Int)
       (achievementType title description : String),
      addUserAchievement
        (addUserAchievement achievements userId achievementType title description)
        userId achievementType title description =
      addUserAchievement achievements userId achievementType title description) ∧
    (∀ (achievements : List UserAchievement) (userId : Int)
       (achievementType title description : String),
      countAchievements achievements userId achievementType = 0 →
      countAchievements
        (addUserAchievement achievements userId achievementType title description)
        userId achievementType = 1) := by
  constructor
  · intro achievements userId achievementType title description
    by_cases h : hasAchievement achievements userId achievementType = true
    · simp [addUserAchievement, h]
    · simp only [Bool.not_eq_true] at h
      simp [addUserAchievement, h, hasAchievement_append]
  · intro achievements userId achievementType title description h
    have hfilter : achievements.filter (fun a =>
        a.userId == userId && a.achievementType == achievementType) = [] := by
      simpa [countAchievements, List.length_eq_zero] using h
    have hno : hasAchievement achievements userId achievementType = false := by
      simp only [hasAchievement, List.any_eq_false]
      intro a ha
      have := List.filter_eq_nil_iff.mp hfilter a ha
      simpa using this
    simp [addUserAchievement, hno, countAchievements, List.filter_append, hfilter]

/-- C9 witness: concrete instance of the counting half. -/
theorem addUserAchievement_idempotent_witness :
    countAchievements [] 1 "streak_7_days" = 0 ∧
    countAchievements
      (addUserAchievement [] 1 "streak_7_days" "Серия 7 дней" "d")
      1 "streak_7_days" = 1 := by
  exact ⟨by decide, addUserAchievement_idempotent.2 [] 1 "streak_7_days"
    "Серия 7 дней" "d" (by decide)⟩

/-- C5 counterexample: starting from an idle session, a Completion
Provider failure during `/exercise` handling leaves the session in state
`exercise` (persisted before the provider call), not in its previous
state. -/
theorem exerciseProviderFailureCounterexample :
    (handleExerciseCommand ⟨StateIdle, [], ""⟩ (Except.error ()) 1).1 ≠
      (⟨StateIdle, [], ""⟩ : UserSession) ∧
    (handleExerciseCommand ⟨StateIdle, [], ""⟩ (Except.error ()) 1).1.state =
      StateExercise := by
  decide

/-- C5 amended: when the Completion Provider fails during `/exercise`
handling, the turn is aborted, but the session has already been persisted
with state `exercise` and context `{exerciseType: grammar}` — the prior
state is not restored; on success the session ends in state
`exercise_reply` with the exercise id stored in the context alongside the
type.  In both outcomes the state and the context are persisted together
as one session record. -/
theorem handleExerciseCommand_spec (session : UserSession)
    (savedExerciseID : Int) :
    handleExerciseCommand session (Except.error ()) savedExerciseID =
      ({ session with state := StateExercise,
                      contextData := [("exerciseType", "grammar")] }, false) ∧
    ∀ text : String,
      handleExerciseCommand session (Except.ok text) savedExerciseID =
        ({ session with state := StateExerciseReply,
                        contextData := [("exerciseType", "grammar"),
                                        ("exerciseID", toString savedExerciseID)] },
         true) := by
  exact ⟨rfl, fun _ => rfl⟩

/-- C1: the `exercise_reply` branch does not grade through `CheckAnswer`;
its stub marks the literally correct answer `"go"` (to an exercise whose
key is `"go"`, which `CheckAnswer` scores 100) as incorrect, because it
merely tests whether the text contains the word "correct". -/
theorem exerciseReplyStubDivergence :
    exerciseReplyIsCorrect "go" = false ∧
    (checkAnswer
      { type := ExerciseType.grammar, level := EnglishLevel.A1,
        instruction := "Choose the correct form of the verb to complete the sentence.",
        content := "I usually _____ to work by bus.",
        answer := "go", options := ["go", "am going"] } "go").1 = 100 ∧
    (handleExerciseReply 7 3 "go").isCorrect = false := by
  refine ⟨by decide, by decide, by decide⟩

/-- Helper: any user answer whose normalized form equals a trimmed accepted
variant is graded by the first tier of `CheckAnswer`. -/
theorem checkAnswer_of_exact (exercise : Exercise) (userAnswer : String)
    (h : ∃ variant ∈ answerVariants exercise,
      normalizeAnswer userAnswer = goTrimSpace variant) :
    checkAnswer exercise userAnswer = (100, "Perfect! Your answer is correct.") := by
  obtain ⟨v, hv, he⟩ := h
  have hany : (answerVariants exercise).any (fun variant =>
      normalizeAnswer userAnswer == goTrimSpace variant) = true := by
    rw [List.any_eq_true]
    exact ⟨v, hv, by rw [he]; simp⟩
  simp only [checkAnswer, hany, if_true]

/-- C8: `CheckAnswer` always returns one of exactly four fixed
(score, feedback) pairs — so the score is always in {0, 60, 80, 100} — and
it equals the tiered cascade that tries exact match, then similarity above
0.8, then substring containment, in that fixed priority order, the first
matching tier winning. -/
theorem checkAnswer_tiers (exercise : Exercise) (userAnswer : String) :
    (checkAnswer exercise userAnswer = (100, "Perfect! Your answer is correct.") ∨
     checkAnswer exercise userAnswer =
       (80, "Almost correct! There are some minor errors in your answer.") ∨
     checkAnswer exercise userAnswer =
       (60, "Partially correct. Your answer contains the right elements but has some issues.") ∨
     checkAnswer exercise userAnswer =
       (0, "Your answer is incorrect. Please try again.")) ∧
    checkAnswer exercise userAnswer =
      (if (answerVariants exercise).any (fun variant =>
            normalizeAnswer userAnswer == goTrimSpace variant) then
         (100, "Perfect! Your answer is correct.")
       else if (answerVariants exercise).any (fun variant =>
            decide (levenshteinSimilarity (normalizeAnswer userAnswer)
              (goTrimSpace variant) > (0.8 : ℚ))) then
         (80, "Almost correct! There are some minor errors in your answer.")
       else if (answerVariants exercise).any (fun variant =>
            goContains (normalizeAnswer userAnswer) (goTrimSpace variant)) then
         (60, "Partially correct. Your answer contains the right elements but has some issues.")
       else
         (0, "Your answer is incorrect. Please try again.")) := by
  constructor
  · simp only [checkAnswer]
    split_ifs <;> simp
  · rfl

/-- C6: any exercise whose answer key is the variant form `"A/B"` grades
both `"a"` and `"B"` with score 100 and the perfect feedback, and in
general exact case-insensitive whitespace-trimmed equality with any
variant of the answer key always returns 100. -/
theorem checkAnswer_exactMatch :
    (∀ exercise : Exercise, exercise.answer = "A/B" →
        checkAnswer exercise "a" = (100, "Perfect! Your answer is correct.") ∧
        checkAnswer exercise "B" = (100, "Perfect! Your answer is correct.")) ∧
    (∀ (exercise : Exercise) (userAnswer : String),
      (∃ variant ∈ answerVariants exercise,
        normalizeAnswer userAnswer = goTrimSpace variant) →
      checkAnswer exercise userAnswer = (100, "Perfect! Your answer is correct.")) := by
  constructor
  · intro exercise h
    constructor <;>
      (apply checkAnswer_of_exact
       unfold answerVariants normalizeAnswer
       rw [h]
       decide)
  · exact checkAnswer_of_exact

/-- C6 witness: grading `"a"` against the key `"A/B"` at a concrete
exercise. -/
theorem checkAnswer_exactMatch_witness :
    ({ type := ExerciseType.grammar, level := EnglishLevel.A1,
       instruction := "", content := "", answer := "A/B",
       options := [] } : Exercise).answer = "A/B" ∧
    checkAnswer
      { type := ExerciseType.grammar, level := EnglishLevel.A1,
        instruction := "", content := "", answer := "A/B", options := [] }
      "a" = (100, "Perfect! Your answer is correct.") := by
  exact ⟨rfl, (checkAnswer_exactMatch.1 _ rfl).1⟩

/-- The distance of a string to itself is zero. -/
theorem levenshteinDistance_self (s : List Char) :
    levenshteinDistance s s = 0 := by
  induction s with
  | nil => simp [levenshteinDistance]
  | cons a t ih => simp [levenshteinDistance, ih, min3]

/-- C7: the similarity of every string with itself is `1.0`; two empty
strings have similarity `1.0`; `"cat"` vs `"cats"` has similarity `0.75`;
and whenever the two strings are not both empty the similarity is
`1 - distance / max(len, len)`. -/
theorem levenshteinSimilarity_spec :
    (∀ s : List Char, levenshteinSimilarity s s = 1) ∧
    levenshteinSimilarity [] [] = 1 ∧
    levenshteinSimilarity (String.toList "cat") (String.toList "cats") = 3 / 4 ∧
    (∀ a b : List Char, max a.length b.length ≠ 0 →
      levenshteinSimilarity a b =
        1 - (levenshteinDistance a b : ℚ) / ((max a.length b.length : Nat) : ℚ)) := by
  refine ⟨?_, ?_, ?_, ?_⟩
  · intro s
    simp [levenshteinSimilarity, levenshteinDistance_self]
  · simp [levenshteinSimilarity, levenshteinDistance]
  · have hd : levenshteinDistance ['c', 'a', 't'] ['c', 'a', 't', 's'] = 1 := by
      simp [levenshteinDistance, min3]
    simp [levenshteinSimilarity, hd]
    norm_num
  · intro a b h
    have h' : ((max a.length b.length : Nat) : ℚ) ≠ 0 := by
      exact_mod_cast h
    simp only [levenshteinSimilarity]
    rw [if_neg h']

/-- C7 witness: the general formula at `"a"` vs `"ab"`. -/
theorem levenshteinSimilarity_spec_witness :
    max (String.toList "a").length (String.toList "ab").length ≠ 0 ∧
    levenshteinSimilarity (String.toList "a") (String.toList "ab") =
      1 - (levenshteinDistance (String.toList "a") (String.toList "ab") : ℚ) /
        ((max (String.toList "a").length (String.toList "ab").length : Nat) : ℚ) := by
  exact ⟨by decide, levenshteinSimilarity_spec.2.2.2 _ _ (by decide)⟩

/-- Calendar-date comparison is reflexive. -/
theorem sameDate_self (d : Date) : sameDate d d = true := by
  simp [sameDate]

/-- C2 counterexample: a user's first-ever activity does *not* yield
`currentStreak = 1` — `CreateUserProgress` initializes
`last_activity_date` to `now`, so the immediately following streak update
takes the "already active today" early return and the streak stays 0. -/
theorem firstActivityStreakCounterexample :
    (updateUserStreak (Date.mk 2026 10 11) (Date.mk 2026 10 10)
        (createUserProgress (Date.mk 2026 10 11))).currentStreak ≠ 1 ∧
    (updateUserStreak (Date.mk 2026 10 11) (Date.mk 2026 10 10)
        (createUserProgress (Date.mk 2026 10 11))).currentStreak = 0 := by
  decide

/-- C2 amended: one streak update increments `currentStreak` when the last
activity was exactly yesterday (calendar-date comparison), is a no-op when
it was today, and otherwise (gap of two or more days) resets it to 1; in
every non-no-op case `longestStreak` becomes
`max(longestStreak, currentStreak)` and `lastActivityDate` becomes `now`.
A first-ever activity, however, creates the progress row with
`lastActivityDate = now` and `currentStreak = 0`, so the streak update is
a no-op and the streak stays 0 (not 1). -/
theorem updateUserStreak_spec (now yesterday : Date) (p : UserProgress) :
    (sameDate p.lastActivityDate yesterday = true →
      updateUserStreak now yesterday p =
        { p with currentStreak := p.currentStreak + 1,
                 longestStreak := max p.longestStreak (p.currentStreak + 1),
                 lastActivityDate := now }) ∧
    (sameDate p.lastActivityDate yesterday = false →
     sameDate p.lastActivityDate now = true →
      updateUserStreak now yesterday p = p) ∧
    (sameDate p.lastActivityDate yesterday = false →
     sameDate p.lastActivityDate now = false →
      updateUserStreak now yesterday p =
        { p with currentStreak := 1,
                 longestStreak := max p.longestStreak 1,
                 lastActivityDate := now }) ∧
    (sameDate now yesterday = false →
      updateUserStreak now yesterday (createUserProgress now) =
        createUserProgress now) := by
  refine ⟨?_, ?_, ?_, ?_⟩
  · intro h1
    simp only [updateUserStreak, applyStreakUpdate, h1, if_true,
      UserProgress.mk.injEq, and_true, true_and]
    split <;> omega
  · intro h1 h2
    simp [updateUserStreak, h1, h2]
  · intro h1 h2
    simp only [updateUserStreak, applyStreakUpdate, h1, h2,
      Bool.false_eq_true, if_false, UserProgress.mk.injEq, and_true, true_and]
    split <;> omega
  · intro h
    simp [updateUserStreak, createUserProgress, h, sameDate_self]

/-- C2 witness: the three streak-law steps and the first-activity no-op at
concrete dates. -/
theorem updateUserStreak_spec_witness :
    (sameDate (Date.mk 2026 10 10) (Date.mk 2026 10 10) = true ∧
      updateUserStreak (Date.mk 2026 10 11) (Date.mk 2026 10 10)
        { totalExercises := 0, correctExercises := 0, currentStreak := 1,
          longestStreak := 1, lastActivityDate := Date.mk 2026 10 10 } =
        { totalExercises := 0, correctExercises := 0, currentStreak := 2,
          longestStreak := 2, lastActivityDate := Date.mk 2026 10 11 }) ∧
    (sameDate (Date.mk 2026 10 9) (Date.mk 2026 10 10) = false ∧
      updateUserStreak (Date.mk 2026 10 11) (Date.mk 2026 10 10)
        { totalExercises := 0, correctExercises := 0, currentStreak := 0,
          longestStreak := 0, lastActivityDate := Date.mk 2026 10 9 } =
        { totalExercises := 0, correctExercises := 0, currentStreak := 1,
          longestStreak := 1, lastActivityDate := Date.mk 2026 10 11 }) ∧
    (sameDate (Date.mk 2026 10 11) (Date.mk 2026 10 10) = false ∧
      updateUserStreak (Date.mk 2026 10 11) (Date.mk 2026 10 10)
        (createUserProgress (Date.mk 2026 10 11)) =
        createUserProgress (Date.mk 2026 10 11)) := by
  refine ⟨⟨by decide, ?_⟩, ⟨by decide, ?_⟩, ⟨by decide, ?_⟩⟩
  · have h := (updateUserStreak_spec (Date.mk 2026 10 11) (Date.mk 2026 10 10)
      { totalExercises := 0, correctExercises := 0, currentStreak := 1,
        longestStreak := 1, lastActivityDate := Date.mk 2026 10 10 }).1 (by decide)
    rw [h]
    simp
  · have h := ((updateUserStreak_spec (Date.mk 2026 10 11) (Date.mk 2026 10 10)
      { totalExercises := 0, correctExercises := 0, currentStreak := 0,
        longestStreak := 0, lastActivityDate := Date.mk 2026 10 9 }).2.2.1
      (by decide) (by decide))
    rw [h]
    simp
  · exact (updateUserStreak_spec (Date.mk 2026 10 11) (Date.mk 2026 10 10)
      (createUserProgress (Date.mk 2026 10 11))).2.2.2 (by decide)

/-- C4 counterexample: the similarity helper itself is case-sensitive —
`levenshteinRatio("A", "a")` is 0, while on the lowercased trimmed forms
it is 1, so the claimed equation fails at `a = "A"`, `b = "a"`. -/
theorem levenshteinSimilarityCaseCounterexample :
    levenshteinSimilarity (String.toList "A") (String.toList "a") ≠
      levenshteinSimilarity (goToLower (goTrimSpace (String.toList "A")))
        (goToLower (goTrimSpace (String.toList "a"))) := by
  have e1 : String.toList "A" = ['A'] := rfl
  have e2 : String.toList "a" = ['a'] := rfl
  have h2 : goToLower (goTrimSpace ['A']) = ['a'] := by decide
  have h3 : goToLower (goTrimSpace ['a']) = ['a'] := by decide
  have h1 : levenshteinSimilarity ['A'] ['a'] = 0 := by
    have hd : levenshteinDistance ['A'] ['a'] = 1 := by
      simp [levenshteinDistance, min3]
    simp [levenshteinSimilarity, hd]
  have h4 : levenshteinSimilarity ['a'] ['a'] = 1 := by
    simp [levenshteinSimilarity, levenshteinDistance_self]
  rw [e1, e2, h1, h2, h3, h4]
  norm_num

/-- C4 amended: the similarity function is applied by `CheckAnswer` to
already-normalized inputs rather than normalizing by itself — grading is
what is insensitive to case and to leading/trailing whitespace: grading
the lowercased whitespace-trimmed form of a user answer gives the same
result as grading the raw answer, for every exercise. -/
theorem checkAnswer_insensitive (exercise : Exercise) (userAnswer : String) :
    checkAnswer exercise
      (String.mk (goToLower (goTrimSpace userAnswer.toList))) =
      checkAnswer exercise userAnswer := by
  have key : normalizeAnswer (String.mk (goToLower (goTrimSpace userAnswer.toList))) =
      normalizeAnswer userAnswer := normalizeAnswer_mk userAnswer
  simp only [checkAnswer]
  rw [key]

end EnglishBot
